import Mathlib

/-!
# Verification of the quality-search core of the image compressor

Shallow embedding of `compress_image` from `src/app.py`.

Modelling choices:
* Byte buffers are `List ℕ`; the core only ever inspects their length
  (`len(output.getvalue()) / 1024`).
* Python floats are modelled as exact rationals `ℚ`; the float literal
  `float('inf')` used to initialise `best_size` is modelled as `⊤` in
  `WithTop ℚ`, whose order and multiplication agree with IEEE infinity on
  the values that occur (`⊤ * c = ⊤` for `c ≠ 0`, and no finite value is
  greater than `⊤`).
* The PIL image together with `img.save(..., format='JPEG', quality=q, ...)`
  is abstracted as an injected encode capability `encode : ℕ → Bytes`,
  exactly as the spec's §6 describes the external interface.
* The loop also records the list of qualities at which `encode` was invoked,
  so that resource claims about the number of encode calls can be stated.
-/

/-- Byte buffers returned by the encode capability. -/
abbrev Bytes := List ℕ

/-- `len(output.getvalue()) / 1024`, the size of an encoded buffer in KB. -/
def sizeKB (b : Bytes) : ℚ := (b.length : ℚ) / 1024

/-- The four-tier size policy of `compress_image` (src/app.py lines 40-48):
`≤ 50` keeps the size, `≤ 100` scales by `0.6`, `≤ 500` by `0.2`,
otherwise by `0.1`. -/
def compute_target (originalKB : ℚ) : ℚ :=
  if originalKB ≤ 50 then originalKB * 1
  else if originalKB ≤ 100 then originalKB * (6/10)
  else if originalKB ≤ 500 then originalKB * (2/10)
  else originalKB * (1/10)

/-- State of the binary-search loop of `compress_image` at exit:
the three `best_*` variables, the final value of `min_quality`, and the
list of qualities at which the encode capability was invoked inside the
loop (in call order). Qualities are Python ints, modelled as `ℤ`. -/
structure LoopResult where
  bestOutput : Option Bytes
  bestSize : WithTop ℚ
  bestQuality : ℤ
  finalLo : ℤ
  queried : List ℤ
  deriving Repr, DecidableEq

/-- The `while min_quality <= max_quality` loop of `compress_image`
(src/app.py lines 57-76), with `lo`/`hi` for `min_quality`/`max_quality`.
Each iteration encodes at `quality = (lo + hi) // 2` (Lean's `ℤ` division
agrees with Python's floor division for the positive divisor 2); if the
result fits the target it is recorded as the new best only when
`current_size > best_size * 0.95`, and `lo` is raised, otherwise `hi` is
lowered. The extra `queried` parameter is an accumulator instrumenting the
qualities at which `encode` is invoked, in call order. -/
def searchLoop (encode : ℤ → Bytes) (targetKB : ℚ) (lo hi : ℤ)
    (bestOutput : Option Bytes) (bestSize : WithTop ℚ) (bestQuality : ℤ)
    (queried : List ℤ) : LoopResult :=
  if h : lo ≤ hi then
    let quality := (lo + hi) / 2
    let output := encode quality
    let currentSize := sizeKB output
    if currentSize ≤ targetKB then
      if ((currentSize : WithTop ℚ)) > bestSize * ((19/20 : ℚ) : WithTop ℚ) then
        searchLoop encode targetKB (quality + 1) hi
          (some output) ((currentSize : WithTop ℚ)) quality
          (queried ++ [quality])
      else
        searchLoop encode targetKB (quality + 1) hi
          bestOutput bestSize bestQuality (queried ++ [quality])
    else
      searchLoop encode targetKB lo (quality - 1)
        bestOutput bestSize bestQuality (queried ++ [quality])
  else
    { bestOutput := bestOutput, bestSize := bestSize,
      bestQuality := bestQuality, finalLo := lo, queried := queried }
termination_by (hi + 1 - lo).toNat
decreasing_by
  · omega
  · omega
  · omega

/-- Python's truthiness test `not best_output`: true for `None` and for an
empty byte string. -/
def falsy : Option Bytes → Bool
  | none => true
  | some b => b.isEmpty

/-- The observable outcome of one `compress_image` call: the returned bytes,
the quality of the encode call that produced them, whether they are a
recorded in-loop fitting candidate (the spec's `met_target`), and the total
number of invocations of the encode capability. -/
structure CompressResult where
  bytes : Bytes
  qualityUsed : ℤ
  metTarget : Bool
  encodeCalls : ℕ
  deriving Repr, DecidableEq

/-- The quality search of `compress_image` for a given target: run the loop
over `[20, 85]` starting from `best_output = None`, `best_size = inf`,
`best_quality = 85`; afterwards, `if not best_output`, encode once more at
the final `min_quality` as a fallback (src/app.py lines 50-88). -/
def search (encode : ℤ → Bytes) (targetKB : ℚ) : CompressResult :=
  let r := searchLoop encode targetKB 20 85 none ⊤ 85 []
  if falsy r.bestOutput then
    { bytes := encode r.finalLo, qualityUsed := r.finalLo, metTarget := false,
      encodeCalls := r.queried.length + 1 }
  else
    { bytes := r.bestOutput.getD [], qualityUsed := r.bestQuality,
      metTarget := true, encodeCalls := r.queried.length }

/-- `compress_image(image, original_size_kb)` (src/app.py lines 33-88):
compute the target from the original size, then run the quality search.
The image itself only enters through the encode capability. -/
def compress_image (encode : ℤ → Bytes) (originalSizeKB : ℚ) :
    CompressResult :=
  search encode (compute_target originalSizeKB)

/-- The same loop with a fallible encode capability. `compress_image` has no
exception handler, so a Python exception raised by `img.save` aborts the
loop and propagates to the caller; this is the standard `Except` embedding
of that behaviour. -/
def searchLoopE {ε : Type} (encode : ℤ → Except ε Bytes) (targetKB : ℚ)
    (lo hi : ℤ) (bestOutput : Option Bytes) (bestSize : WithTop ℚ)
    (bestQuality : ℤ) (queried : List ℤ) : Except ε LoopResult :=
  if h : lo ≤ hi then
    let quality := (lo + hi) / 2
    match encode quality with
    | .error err => .error err
    | .ok output =>
      let currentSize := sizeKB output
      if currentSize ≤ targetKB then
        if ((currentSize : WithTop ℚ)) > bestSize * ((19/20 : ℚ) : WithTop ℚ) then
          searchLoopE encode targetKB (quality + 1) hi
            (some output) ((currentSize : WithTop ℚ)) quality
            (queried ++ [quality])
        else
          searchLoopE encode targetKB (quality + 1) hi
            bestOutput bestSize bestQuality (queried ++ [quality])
      else
        searchLoopE encode targetKB lo (quality - 1)
          bestOutput bestSize bestQuality (queried ++ [quality])
  else
    .ok { bestOutput := bestOutput, bestSize := bestSize,
          bestQuality := bestQuality, finalLo := lo, queried := queried }
termination_by (hi + 1 - lo).toNat
decreasing_by
  · omega
  · omega
  · omega

/-- The quality search with a fallible encode capability: any error raised
by an encode attempt (inside the loop or in the fallback) propagates
unchanged. -/
def searchE {ε : Type} (encode : ℤ → Except ε Bytes) (targetKB : ℚ) :
    Except ε CompressResult := do
  let r ← searchLoopE encode targetKB 20 85 none ⊤ 85 []
  if falsy r.bestOutput then
    let fb ← encode r.finalLo
    pure { bytes := fb, qualityUsed := r.finalLo, metTarget := false,
           encodeCalls := r.queried.length + 1 }
  else
    pure { bytes := r.bestOutput.getD [], qualityUsed := r.bestQuality,
           metTarget := true, encodeCalls := r.queried.length }

/-- Deterministic mock encode capability from the spec's end-to-end
scenario, `size_kb(quality) = quality * 1.2`, realised at byte granularity:
`quality * 1.2` KB is `quality * 1228.8` bytes, truncated to whole bytes.
At every quality the truncation does not change how the size compares with
the 60 KB target, and at quality 50 the size is exactly
`61440 / 1024 = 60` KB. -/
def mockEnc : ℤ → Bytes := fun q => List.replicate (6144 * q.toNat / 5) 0

/-- Encode capability whose output is always empty: every quality fits any
nonnegative target. -/
def zeroEnc : ℤ → Bytes := fun _ => []

/-! ## Helper lemmas -/

/-- Multiplying the initial `best_size = inf` by the slack factor `0.95`
still gives `inf`, as with IEEE infinity. -/
lemma top_mul_slack : (⊤ : WithTop ℚ) * ((19/20 : ℚ) : WithTop ℚ) = ⊤ :=
  WithTop.top_mul (by exact_mod_cast (by norm_num : (19/20 : ℚ) ≠ 0))

/-- Key invariant: starting from `best_output = None` and
`best_size = inf`, the loop never records a candidate, because
`current_size > inf * 0.95` is false and `best_size` is only ever written
inside that branch. -/
lemma searchLoop_no_best (encode : ℤ → Bytes) (t : ℚ) :
    ∀ n : ℕ, ∀ lo hi bq : ℤ, ∀ acc : List ℤ, (hi + 1 - lo).toNat ≤ n →
      (searchLoop encode t lo hi none ⊤ bq acc).bestOutput = none ∧
      (searchLoop encode t lo hi none ⊤ bq acc).bestSize = ⊤ ∧
      (searchLoop encode t lo hi none ⊤ bq acc).bestQuality = bq := by
  intro n
  induction n with
  | zero =>
    intro lo hi bq acc h
    rw [searchLoop]
    have hlt : ¬ lo ≤ hi := by omega
    simp [hlt]
  | succ n ih =>
    intro lo hi bq acc h
    rw [searchLoop]
    by_cases hle : lo ≤ hi
    · simp only [dif_pos hle]
      by_cases hfit : sizeKB (encode ((lo + hi) / 2)) ≤ t
      · have hcond : ¬ ((sizeKB (encode ((lo + hi) / 2)) : WithTop ℚ) >
            (⊤ : WithTop ℚ) * ((19/20 : ℚ) : WithTop ℚ)) := by
          rw [top_mul_slack]
          exact not_top_lt
        simp only [if_pos hfit, if_neg hcond]
        exact ih ((lo + hi) / 2 + 1) hi bq _ (by omega)
      · simp only [if_neg hfit]
        exact ih lo ((lo + hi) / 2 - 1) bq _ (by omega)
    · simp [hle]

/-- Consequence: every `search` call takes the fallback path, returning
the bytes of one extra encode call at the final `min_quality`. -/
lemma search_fallback (e : ℤ → Bytes) (t : ℚ) :
    search e t =
      { bytes := e ((searchLoop e t 20 85 none ⊤ 85 []).finalLo),
        qualityUsed := (searchLoop e t 20 85 none ⊤ 85 []).finalLo,
        metTarget := false,
        encodeCalls := (searchLoop e t 20 85 none ⊤ 85 []).queried.length + 1 } := by
  have h := (searchLoop_no_best e t 66 20 85 85 [] (by norm_num)).1
  simp [search, h, falsy]

/-- Size of the mock encoder's output, before evaluating at a quality. -/
lemma mock_size (q : ℤ) :
    sizeKB (mockEnc q) = ((6144 * q.toNat / 5 : ℕ) : ℚ) / 1024 := by
  simp [mockEnc, sizeKB]

lemma mock_size_52 : sizeKB (mockEnc 52) = 63897 / 1024 := by
  rw [mock_size]; simp
lemma mock_size_35 : sizeKB (mockEnc 35) = 42 := by
  rw [mock_size]; simp; norm_num
lemma mock_size_43 : sizeKB (mockEnc 43) = 26419 / 512 := by
  rw [mock_size]; simp; norm_num
lemma mock_size_47 : sizeKB (mockEnc 47) = 57753 / 1024 := by
  rw [mock_size]; simp
lemma mock_size_49 : sizeKB (mockEnc 49) = 60211 / 1024 := by
  rw [mock_size]; simp
lemma mock_size_50 : sizeKB (mockEnc 50) = 60 := by
  rw [mock_size]; simp; norm_num
lemma mock_size_51 : sizeKB (mockEnc 51) = 15667 / 256 := by
  rw [mock_size]; simp; norm_num

/-- The concrete run of the loop on the mock encoder with target 60 KB:
qualities 52, 35, 43, 47, 49, 50, 51 are encoded (50 fits exactly, yet is
not recorded), and the loop exits with `min_quality = 51`. -/
lemma mock_run : searchLoop mockEnc 60 20 85 none ⊤ 85 [] =
    { bestOutput := none, bestSize := ⊤, bestQuality := 85,
      finalLo := 51, queried := [52, 35, 43, 47, 49, 50, 51] } := by
  rw [searchLoop]
  norm_num [top_mul_slack, mock_size_52]
  rw [searchLoop]
  norm_num [top_mul_slack, mock_size_35]
  rw [searchLoop]
  norm_num [top_mul_slack, mock_size_43]
  rw [searchLoop]
  norm_num [top_mul_slack, mock_size_47]
  rw [searchLoop]
  norm_num [top_mul_slack, mock_size_49]
  rw [searchLoop]
  norm_num [top_mul_slack, mock_size_50]
  rw [searchLoop]
  norm_num [top_mul_slack, mock_size_51]
  rw [searchLoop]
  norm_num

lemma zero_size (q : ℤ) : sizeKB (zeroEnc q) = 0 := by
  simp [zeroEnc, sizeKB]

/-- The concrete run of the loop on the always-empty encoder with target
60 KB: every probed quality fits, `min_quality` climbs all the way to 86,
and still nothing is recorded. -/
lemma zero_run : searchLoop zeroEnc 60 20 85 none ⊤ 85 [] =
    { bestOutput := none, bestSize := ⊤, bestQuality := 85,
      finalLo := 86, queried := [52, 69, 77, 81, 83, 84, 85] } := by
  rw [searchLoop]
  norm_num [top_mul_slack, zero_size]
  rw [searchLoop]
  norm_num [top_mul_slack, zero_size]
  rw [searchLoop]
  norm_num [top_mul_slack, zero_size]
  rw [searchLoop]
  norm_num [top_mul_slack, zero_size]
  rw [searchLoop]
  norm_num [top_mul_slack, zero_size]
  rw [searchLoop]
  norm_num [top_mul_slack, zero_size]
  rw [searchLoop]
  norm_num [top_mul_slack, zero_size]
  rw [searchLoop]
  norm_num

/-! ## Claim theorems -/

/-- C1: refuted on the code. With the deterministic mock encoder, quality
50 lies in `[20, 85]` and its encoded size fits the 60 KB target, yet the
search does not return a recorded in-loop candidate with
`met_target = true`: it returns the fallback encode at quality 51, whose
output does not even fit the target. The acceptance rule
`current_size > best_size * 0.95` can never hold against the initial
`best_size = inf`, contradicting the code's own comments on lines 70 and
78 of src/app.py. -/
theorem C1_fitting_quality_not_returned :
    sizeKB (mockEnc 50) ≤ 60 ∧ (20 : ℤ) ≤ 50 ∧ (50 : ℤ) ≤ 85 ∧
    (search mockEnc 60).metTarget = false ∧
    (search mockEnc 60).qualityUsed = 51 ∧
    (search mockEnc 60).bytes = mockEnc 51 ∧
    ¬ (sizeKB ((search mockEnc 60).bytes) ≤ 60) := by
  refine ⟨by rw [mock_size_50], by norm_num, by norm_num, ?_, ?_, ?_, ?_⟩
  · rw [search_fallback, mock_run]
  · rw [search_fallback, mock_run]
  · rw [search_fallback, mock_run]
  · rw [search_fallback, mock_run]
    show ¬ (sizeKB (mockEnc 51) ≤ 60)
    rw [mock_size_51]
    norm_num

/-- C2: refuted on the code. Original size 600 KB gives target 60 KB, and
with the mock encoder (`size_kb(quality) = quality * 1.2`) quality 50 fits
exactly; but `compress_image` returns the fallback encode at quality 51
(size ≈ 61.2 KB > 60 KB) with no recorded candidate, not the accepted best
at quality 50 that the claim requires. -/
theorem C2_scenario_returns_51_not_50 :
    compute_target 600 = 60 ∧
    (compress_image mockEnc 600).metTarget = false ∧
    (compress_image mockEnc 600).qualityUsed = 51 ∧
    ¬ ((compress_image mockEnc 600).qualityUsed = 50) ∧
    60 < sizeKB ((compress_image mockEnc 600).bytes) := by
  have ht : compute_target 600 = 60 := by norm_num [compute_target]
  refine ⟨ht, ?_, ?_, ?_, ?_⟩ <;>
    · unfold compress_image
      rw [ht, search_fallback, mock_run]
      try norm_num
      try (show 60 < sizeKB (mockEnc 51); rw [mock_size_51]; norm_num)

/-- C3: refuted on the code. With an encode capability whose output is
empty at every quality, every quality fits the 60 KB target, `min_quality`
climbs to 86, no candidate is recorded, and the fallback encodes at
quality 86 — outside the claimed range `[20, 85]`. -/
theorem C3_fallback_quality_out_of_range :
    (∀ q : ℤ, sizeKB (zeroEnc q) ≤ 60) ∧
    (search zeroEnc 60).qualityUsed = 86 ∧
    ¬ ((search zeroEnc 60).qualityUsed ≤ 85) ∧
    (search zeroEnc 60).bytes = zeroEnc 86 := by
  refine ⟨fun q => by rw [zero_size]; norm_num, ?_, ?_, ?_⟩ <;>
    · rw [search_fallback, zero_run]
      try norm_num

/-- C4: refuted on the code. The loop itself performs at most 7 encode
calls, but because no candidate is ever recorded the post-loop fallback
encode always runs as well: in the spec's own end-to-end scenario the code
performs 7 + 1 = 8 encode calls, exceeding the claimed bound of 7.
(Termination itself holds: `searchLoop` is a total function.) -/
theorem C4_eight_encode_calls :
    (compress_image mockEnc 600).encodeCalls = 8 := by
  have ht : compute_target 600 = 60 := by norm_num [compute_target]
  unfold compress_image
  rw [ht, search_fallback, mock_run]
  simp

/-- C5: confirmed. For every encode capability and every target, the
acceptance test `current_size > best_size * 0.95` never fires starting
from `best_size = inf`, so `best_output` stays `None`, `met_target` is
false, and the returned bytes are the single post-loop fallback encode at
the final `min_quality`. -/
theorem C5_no_candidate_ever_recorded (e : ℤ → Bytes) (t : ℚ) :
    (searchLoop e t 20 85 none ⊤ 85 []).bestOutput = none ∧
    (search e t).metTarget = false ∧
    (search e t).qualityUsed = (searchLoop e t 20 85 none ⊤ 85 []).finalLo ∧
    (search e t).bytes = e ((searchLoop e t 20 85 none ⊤ 85 []).finalLo) := by
  refine ⟨(searchLoop_no_best e t 66 20 85 85 [] (by norm_num)).1, ?_, ?_, ?_⟩ <;>
    rw [search_fallback]

/-- C6: confirmed. The size policy implements the four-tier schedule
exactly: factor 1.0 up to 50 KB, 0.6 on (50, 100], 0.2 on (100, 500],
0.1 above 500, with the boundary values `compute_target 50 = 50`,
`compute_target 100 = 60` and `compute_target 500 = 100`. -/
theorem C6_compute_target_tiers :
    (∀ x : ℚ, x ≤ 50 → compute_target x = x * 1) ∧
    (∀ x : ℚ, 50 < x → x ≤ 100 → compute_target x = x * (6/10)) ∧
    (∀ x : ℚ, 100 < x → x ≤ 500 → compute_target x = x * (2/10)) ∧
    (∀ x : ℚ, 500 < x → compute_target x = x * (1/10)) ∧
    compute_target 50 = 50 ∧ compute_target 100 = 60 ∧
    compute_target 500 = 100 := by
  refine ⟨?_, ?_, ?_, ?_, by norm_num [compute_target],
    by norm_num [compute_target], by norm_num [compute_target]⟩
  · intro x hx
    rw [compute_target, if_pos hx]
  · intro x h1 h2
    rw [compute_target, if_neg (by linarith), if_pos h2]
  · intro x h1 h2
    rw [compute_target, if_neg (by linarith), if_neg (by linarith), if_pos h2]
  · intro x h1
    rw [compute_target, if_neg (by linarith), if_neg (by linarith),
      if_neg (by linarith)]

/-- Witness for C6: one concrete input per tier. -/
theorem C6_compute_target_tiers_witness :
    compute_target 40 = 40 * 1 ∧ compute_target 75 = 75 * (6/10) ∧
    compute_target 300 = 300 * (2/10) ∧ compute_target 600 = 600 * (1/10) :=
  ⟨C6_compute_target_tiers.1 40 (by norm_num),
   C6_compute_target_tiers.2.1 75 (by norm_num) (by norm_num),
   C6_compute_target_tiers.2.2.1 300 (by norm_num) (by norm_num),
   C6_compute_target_tiers.2.2.2.1 600 (by norm_num)⟩

/-- C7: confirmed. For positive original sizes the computed target never
exceeds the original, with equality exactly on the lowest tier
(`original ≤ 50`). -/
theorem C7_target_le_original (x : ℚ) (hx : 0 < x) :
    compute_target x ≤ x ∧ (compute_target x = x ↔ x ≤ 50) := by
  rcases le_or_lt x 50 with h | h
  · rw [compute_target, if_pos h]
    constructor
    · linarith
    · constructor
      · intro _; exact h
      · intro _; ring
  · have hne : ¬ x ≤ 50 := by linarith
    rcases le_or_lt x 100 with h2 | h2
    · rw [compute_target, if_neg hne, if_pos h2]
      refine ⟨by linarith, ?_, ?_⟩
      · intro heq; linarith
      · intro hle; linarith
    · have hne2 : ¬ x ≤ 100 := by linarith
      rcases le_or_lt x 500 with h3 | h3
      · rw [compute_target, if_neg hne, if_neg hne2, if_pos h3]
        refine ⟨by linarith, ?_, ?_⟩
        · intro heq; linarith
        · intro hle; linarith
      · have hne3 : ¬ x ≤ 500 := by linarith
        rw [compute_target, if_neg hne, if_neg hne2, if_neg hne3]
        refine ⟨by linarith, ?_, ?_⟩
        · intro heq; linarith
        · intro hle; linarith

/-- Witness for C7 at an input on the 0.2 tier. -/
theorem C7_target_le_original_witness :
    compute_target 200 ≤ 200 ∧ (compute_target 200 = 200 ↔ (200 : ℚ) ≤ 50) :=
  C7_target_le_original 200 (by norm_num)

/-- C8: confirmed. The search is a pure function of its inputs: two calls
with extensionally equal encode capabilities and equal targets produce
identical outcomes (bytes, quality, size, call count). -/
theorem C8_search_deterministic (e₁ e₂ : ℤ → Bytes) (t₁ t₂ : ℚ)
    (henc : ∀ q, e₁ q = e₂ q) (ht : t₁ = t₂) :
    search e₁ t₁ = search e₂ t₂ := by
  have he : e₁ = e₂ := funext henc
  rw [he, ht]

/-- Witness for C8: two syntactically different but extensionally equal
encode capabilities. -/
theorem C8_search_deterministic_witness :
    search (fun q => List.replicate q.toNat 7) 30 =
      search (fun q => (List.replicate q.toNat 7).map id) 30 :=
  C8_search_deterministic _ _ _ _ (fun q => by simp) rfl

/-- Helper for C9: an encode error at the currently probed quality makes
the loop return exactly that error. -/
lemma searchLoopE_error {ε : Type} (encode : ℤ → Except ε Bytes) (t : ℚ)
    (err : ε) (lo hi : ℤ) (bo : Option Bytes) (bs : WithTop ℚ) (bq : ℤ)
    (acc : List ℤ) (hle : lo ≤ hi)
    (henc : encode ((lo + hi) / 2) = .error err) :
    searchLoopE encode t lo hi bo bs bq acc = .error err := by
  rw [searchLoopE]
  simp only [dif_pos hle, henc]

/-- C9: confirmed (for the `Except` embedding of Python exception
propagation — `compress_image` contains no handler). If the encode
capability fails at the very first probed quality 52, the whole search
returns that error unchanged; and at any point of the search, a failing
encode attempt makes the remaining loop return that error immediately,
with no retry at another quality and no partial result. -/
theorem C9_error_propagates {ε : Type} (encode : ℤ → Except ε Bytes)
    (t : ℚ) (err : ε) (henc : encode 52 = .error err) :
    searchE encode t = .error err ∧
    ∀ lo hi : ℤ, ∀ bo : Option Bytes, ∀ bs : WithTop ℚ, ∀ bq : ℤ,
      ∀ acc : List ℤ, lo ≤ hi → encode ((lo + hi) / 2) = .error err →
        searchLoopE encode t lo hi bo bs bq acc = .error err := by
  constructor
  · have h52 : ((20 : ℤ) + 85) / 2 = 52 := by norm_num
    have hloop : searchLoopE encode t 20 85 none ⊤ 85 [] = .error err :=
      searchLoopE_error encode t err 20 85 none ⊤ 85 []
        (by norm_num) (by rw [h52, henc])
    rw [searchE, hloop]
    rfl
  · intro lo hi bo bs bq acc hle he
    exact searchLoopE_error encode t err lo hi bo bs bq acc hle he

/-- Witness for C9: a capability that always fails with error 7. -/
theorem C9_error_propagates_witness :
    searchE (fun _ => (Except.error 7 : Except ℕ Bytes)) 60 =
      Except.error 7 :=
  (C9_error_propagates (fun _ => (Except.error 7 : Except ℕ Bytes))
    60 7 rfl).1

/-- C10 counterexample: the code does not fail on a non-positive original
size; `original_kb = -1` satisfies the first branch `original_kb <= 50`
and the value `-1` is silently returned, contradicting the claimed
`InvalidInput` failure. -/
theorem C10_counterexample : compute_target (-1) = -1 := by
  norm_num [compute_target]

/-- C10 amended: for `original_kb ≤ 0`, `compute_target` does not fail:
the `≤ 50` tier applies and the original size is returned unchanged
(factor 1.0). -/
theorem C10_nonpos_returns_input (x : ℚ) (hx : x ≤ 0) :
    compute_target x = x := by
  rw [compute_target, if_pos (by linarith)]
  ring

/-- Witness for the amended C10. -/
theorem C10_nonpos_returns_input_witness : compute_target (-2) = -2 :=
  C10_nonpos_returns_input (-2) (by norm_num)
